import Mathlib

/-!
Verification of the ForgeXBot pattern-scanning core.

This file gives a shallow embedding, in Lean 4, of the deterministic core of
the ForgeXBot repository (pattern detectors, trend analyzer,
support/resistance analyzer, strength calculator, enhanced pattern manager
and the alert deduplication cache), together with theorems settling the
frozen claims about that code.

Conventions of the embedding:
* Python floats are modelled as exact rationals (ℚ); all the code under
  scrutiny is plain field arithmetic and comparisons, so ℚ is faithful up to
  floating-point rounding, which no claim is about.
* A pandas DataFrame of candles is modelled as a `List Candle` in time
  order; `iloc[-1]` is the last element, `tail(n)` is `takeLast n`, etc.
* Python dicts with a fixed field set are modelled as structures; the one
  place where a claim is about the *keys* of a dict (the support/resistance
  result consumed via `.get('levels', [])`) is modelled as an association
  list `List (String × SRValue)` so that key lookup is explicit.
* `datetime.now()` is modelled by passing the current time (seconds, as ℚ)
  explicitly to the cache operations.
* `hashlib.md5(s).hexdigest()` is a fixed deterministic injection on the
  key strings; the cache key is modelled by the joined key string itself,
  which has the same lookup semantics.
-/

/-- One closed OHLCV bar, as produced by the market-data connector. -/
structure Candle where
  «open» : ℚ
  high : ℚ
  low : ℚ
  close : ℚ
  volume : ℚ
  time : ℤ
deriving DecidableEq, Repr

/-- Mean of a list of rationals (`pandas.Series.mean` on a nonempty slice). -/
def pyMean (xs : List ℚ) : ℚ := xs.sum / xs.length

/-- The last `n` elements of a list (`DataFrame.tail(n)` / `iloc[-n:]`). -/
def takeLast {α : Type} (n : ℕ) (xs : List α) : List α := xs.drop (xs.length - n)

/-- `iloc[-(n+1):-1]`: the `n` elements preceding the last one. -/
def sliceBeforeLast {α : Type} (n : ℕ) (xs : List α) : List α :=
  (xs.drop (xs.length - (n + 1))).dropLast

/-- Python stable `sorted` / `list.sort`: insertion sort that keeps the
original relative order of elements whose keys compare equal. -/
def insertStable {α : Type} (le : α → α → Bool) (x : α) : List α → List α
  | [] => [x]
  | y :: ys => if le y x then y :: insertStable le x ys else x :: y :: ys

/-- Stable sort by a boolean `≤`-test, modelling Python `sorted(..., key=...)`. -/
def stableSort {α : Type} (le : α → α → Bool) (xs : List α) : List α :=
  xs.foldl (fun acc x => insertStable le x acc) []

/-! ## AlertCache (src/src/utils/alert_cache.py)

The cache is a JSON dict mapping an md5 key to a record holding the ISO
timestamp and a minimal descriptor.  We model the dict as an association
list from key strings to entries, and the clock as an explicit `now`
argument (seconds). -/

/-- The fields of a pattern dict that `_generate_alert_key` reads. -/
structure AlertPattern where
  symbol : String
  timeframe : String
  pattern : String
  candle_close : ℚ
deriving DecidableEq

/-- One cache record, as written by `add_alert`: timestamp (seconds) plus
the minimal descriptor fields. -/
structure CacheEntry where
  timestamp : ℚ
  pattern : String
  symbol : String
  timeframe : String
deriving DecidableEq

/-- `AlertCache._generate_alert_key`: the key is a deterministic function of
exactly (symbol, timeframe, pattern, candle_close); md5 of the joined string
is modelled by the joined string itself. -/
def generate_alert_key (p : AlertPattern) : String :=
  p.symbol ++ "|" ++ p.timeframe ++ "|" ++ p.pattern ++ "|" ++ toString p.candle_close

/-- The in-memory cache dict: key → entry. -/
def AlertCacheState : Type := List (String × CacheEntry)

/-- Dict lookup (`key in self.cache` / `self.cache[key]`). -/
def cacheLookup (cache : AlertCacheState) (key : String) : Option CacheEntry :=
  List.lookup key cache

/-- Dict assignment `self.cache[key] = entry` (overwrites an existing key). -/
def cacheInsert (cache : AlertCacheState) (key : String) (e : CacheEntry) :
    AlertCacheState :=
  (key, e) :: (List.filter (fun kv => kv.fst ≠ key) cache)

/-- `AlertCache.is_duplicate`: true iff the key is cached and the record's
age `now - timestamp` is strictly below the cooldown. -/
def is_duplicate (cooldown : ℚ) (cache : AlertCacheState) (now : ℚ)
    (p : AlertPattern) : Bool :=
  match cacheLookup cache (generate_alert_key p) with
  | some e => decide (now - e.timestamp < cooldown)
  | none => false

/-- `AlertCache.add_alert`: records the current time under the pattern's key. -/
def add_alert (cache : AlertCacheState) (now : ℚ) (p : AlertPattern) :
    AlertCacheState :=
  cacheInsert cache (generate_alert_key p)
    { timestamp := now, pattern := p.pattern, symbol := p.symbol,
      timeframe := p.timeframe }

/-- `AlertCache._clean_expired`: drops records older than twice the cooldown. -/
def clean_expired (cooldown : ℚ) (cache : AlertCacheState) (now : ℚ) :
    AlertCacheState :=
  List.filter (fun kv => ¬ (now - kv.snd.timestamp > cooldown * 2)) cache

/-! ## Pattern detectors (src/src/patterns/)

Each detector's `validate_candles` reduces, in the typed embedding, to the
length check against `get_required_candles` (the required OHLCV columns are
always present by construction).  Dead evidence fields of the returned
dicts ('details') are omitted; every field a claim reads is carried. -/

/-- A default candle used only as the (unreachable) default of `getLastD`
behind a nonemptiness guard. -/
def candle0 : Candle := ⟨0, 0, 0, 0, 0, 0⟩

/-- `BullishEngulfing.calculate_strength` (and, identically,
`BearishEngulfing.calculate_strength`): 0.5 base, +0.2 on a 1.5× volume
spike, +0.2 / +0.1 tiered on the body size quotient, capped at 1. -/
def engulfing_calculate_strength (prev_candle curr_candle : Candle) : ℚ :=
  let s1 : ℚ := 0.5
  let s2 := if curr_candle.volume > prev_candle.volume * 1.5 then s1 + 0.2 else s1
  let curr_body := |curr_candle.close - curr_candle.«open»|
  let prev_body := |prev_candle.close - prev_candle.«open»|
  let s3 :=
    if prev_body > 0 then
      if curr_body / prev_body > 2 then s2 + 0.2
      else if curr_body / prev_body > 1.5 then s2 + 0.1
      else s2
    else s2
  min s3 1

/-- `Hammer.calculate_strength`: 0.5 base, +0.2 when the mean of the four
preceding closes sits below the first of them, +0.1 on a 1.2× volume rise,
+0.2 / +0.1 tiered on lower-shadow/body, capped at 1. -/
def hammer_calculate_strength (candle : Candle) (candles : List Candle) : ℚ :=
  let s1 : ℚ := 0.5
  let s2 :=
    if candles.length ≥ 5 then
      let trend_closes := (sliceBeforeLast 4 candles).map (·.close)
      if pyMean trend_closes < trend_closes.headD 0 then s1 + 0.2 else s1
    else s1
  let s3 :=
    if candles.length ≥ 2 then
      if candle.volume > ((candles.map (·.volume)).getD (candles.length - 2) 0) * 1.2
      then s2 + 0.1 else s2
    else s2
  let body := |candle.close - candle.«open»|
  let lower_shadow := min candle.«open» candle.close - candle.low
  let s4 :=
    if body > 0 then
      if lower_shadow / body > 3 then s3 + 0.2
      else if lower_shadow / body > 2.5 then s3 + 0.1
      else s3
    else s3
  min s4 1

/-- `ShootingStar.calculate_strength`: mirror image of the hammer version
(uptrend check, upper shadow). -/
def shooting_star_calculate_strength (candle : Candle) (candles : List Candle) : ℚ :=
  let s1 : ℚ := 0.5
  let s2 :=
    if candles.length ≥ 5 then
      let trend_closes := (sliceBeforeLast 4 candles).map (·.close)
      if pyMean trend_closes > trend_closes.headD 0 then s1 + 0.2 else s1
    else s1
  let s3 :=
    if candles.length ≥ 2 then
      if candle.volume > ((candles.map (·.volume)).getD (candles.length - 2) 0) * 1.2
      then s2 + 0.1 else s2
    else s2
  let body := |candle.close - candle.«open»|
  let upper_shadow := candle.high - max candle.«open» candle.close
  let s4 :=
    if body > 0 then
      if upper_shadow / body > 3 then s3 + 0.2
      else if upper_shadow / body > 2.5 then s3 + 0.1
      else s3
    else s3
  min s4 1

/-- `Doji.classify_doji`: subtype from the two shadow/range quotients. -/
def classify_doji (upper_shadow lower_shadow range_total : ℚ) : String :=
  if range_total = 0 then "standard"
  else
    let upper_frac := upper_shadow / range_total
    let lower_frac := lower_shadow / range_total
    if upper_frac < 0.1 ∧ lower_frac > 0.6 then "dragonfly"
    else if lower_frac < 0.1 ∧ upper_frac > 0.6 then "gravestone"
    else if upper_frac > 0.3 ∧ lower_frac > 0.3 then "long_legged"
    else "standard"

/-- `Doji.calculate_strength`: 0.5 base, +0.2 on a 1.5× spike over the
trailing volume mean, +0.2 when the preceding 3-bar move exceeds 3× the
trailing 5-bar mean range (the frame carries no 'range' column, so the
`high - low` fallback of the source is the computed branch), +0.1 for a
dragonfly/gravestone subtype, capped at 1. -/
def doji_calculate_strength (candle : Candle) (candles : List Candle) : ℚ :=
  let s1 : ℚ := 0.5
  let s2 :=
    if candles.length ≥ 2 then
      let avg_volume :=
        if candles.length ≥ 6 then pyMean ((sliceBeforeLast 5 candles).map (·.volume))
        else pyMean (candles.dropLast.map (·.volume))
      if candle.volume > avg_volume * 1.5 then s1 + 0.2 else s1
    else s1
  let s3 :=
    if candles.length ≥ 5 then
      let closes := candles.map (·.close)
      let recent_move := |closes.getD (candles.length - 5) 0 - closes.getD (candles.length - 2) 0|
      let avg_range := pyMean ((takeLast 5 candles).map (fun c => c.high - c.low))
      if recent_move > avg_range * 3 then s2 + 0.2 else s2
    else s2
  let doji_type := classify_doji
    (candle.high - max candle.«open» candle.close)
    (min candle.«open» candle.close - candle.low)
    (candle.high - candle.low)
  let s4 := if doji_type = "dragonfly" ∨ doji_type = "gravestone" then s3 + 0.1 else s3
  min s4 1

/-- The fields of a doji match dict that the claims read. -/
structure DojiMatch where
  pattern : String
  type : String
  subtype : String
  candle_time : ℤ
  candle_close : ℚ
  strength : ℚ
deriving DecidableEq

/-- `Doji.detect`: body at most `doji_threshold` of the range, both shadows
at least 10% of the range; subtype via `classify_doji`. -/
def doji_detect (doji_threshold : ℚ) (candles : List Candle) : Option DojiMatch :=
  if candles.length < 1 then none
  else
    let candle := candles.getLastD candle0
    let body := |candle.close - candle.«open»|
    let range_total := candle.high - candle.low
    let upper_shadow := candle.high - max candle.«open» candle.close
    let lower_shadow := min candle.«open» candle.close - candle.low
    if range_total = 0 then none
    else
      let body_frac := if range_total > 0 then body / range_total else 0
      if body_frac > doji_threshold then none
      else
        let min_shadow := range_total * 0.1
        if upper_shadow < min_shadow ∨ lower_shadow < min_shadow then none
        else
          some
            { pattern := "Doji"
            , type := "neutral"
            , subtype := classify_doji upper_shadow lower_shadow range_total
            , candle_time := candle.time
            , candle_close := candle.close
            , strength := doji_calculate_strength candle candles }

/-! ## TrendAnalyzer (src/src/analysis/trend_analyzer.py) -/

/-- The configuration fields `TrendAnalyzer.__init__` reads (defaults
20 / 50 / 0.0001 / 0.0005). -/
structure TrendConfig where
  ema_short_period : ℕ
  ema_long_period : ℕ
  trend_strength_threshold : ℚ
  sideways_threshold : ℚ

/-- The analyzer's default configuration. -/
def defaultTrendConfig : TrendConfig :=
  { ema_short_period := 20, ema_long_period := 50
  , trend_strength_threshold := 0.0001, sideways_threshold := 0.0005 }

/-- `TrendDirection` enum. -/
inductive TrendDirection
  | uptrend
  | downtrend
  | sideways
  | unknown
deriving DecidableEq, Repr

/-- Recursive tail of an `adjust=False` exponentially weighted mean. -/
def emaGo (a : ℚ) (y : ℚ) : List ℚ → List ℚ
  | [] => []
  | z :: zs => ((1 - a) * y + a * z) :: emaGo a ((1 - a) * y + a * z) zs

/-- `TrendAnalyzer.calculate_ema`: `Series.ewm(span=period, adjust=False).mean()`,
i.e. y₀ = x₀ and yᵢ = (1-α)·yᵢ₋₁ + α·xᵢ with α = 2/(period+1). -/
def calculate_ema (period : ℕ) (xs : List ℚ) : List ℚ :=
  match xs with
  | [] => []
  | x :: rest => x :: emaGo (2 / ((period : ℚ) + 1)) x rest

/-- The DataFrame columns `add_technical_indicators` adds that any claim
consumes (the price-vs-EMA and boolean relation columns are dead in the
analyzed paths and are not carried). -/
structure IndicatorFrame where
  candles : List Candle
  ema20 : List ℚ
  ema50 : List ℚ
deriving DecidableEq

/-- `TrendAnalyzer.add_technical_indicators`: the short/long EMA columns of
the close series. -/
def add_technical_indicators (cfg : TrendConfig) (candles : List Candle) :
    IndicatorFrame :=
  { candles := candles
  , ema20 := calculate_ema cfg.ema_short_period (candles.map (·.close))
  , ema50 := calculate_ema cfg.ema_long_period (candles.map (·.close)) }

/-- Direction and strength of one trend sub-method. -/
structure TrendResult where
  direction : TrendDirection
  strength : ℚ
deriving DecidableEq, Repr

/-- `TrendAnalyzer.identify_trend_by_ema`: unknown below the long span;
otherwise the nested EMA-relation / close-position / slope-threshold rule of
the source (the computed `ema50_slope` and price-vs-EMA details are dead). -/
def identify_trend_by_ema (cfg : TrendConfig) (df : IndicatorFrame) : TrendResult :=
  if df.candles.length < cfg.ema_long_period then ⟨.unknown, 0⟩
  else
    let n := df.candles.length
    let ema20 := df.ema20.getLastD 0
    let ema50 := df.ema50.getLastD 0
    let close := ((df.candles.getLastD candle0)).close
    let prev20 := if n > 1 then df.ema20.getD (n - 2) 0 else ema20
    let ema20_slope := if prev20 ≠ 0 then (ema20 - prev20) / prev20 else 0
    if ema20 > ema50 ∧ close > ema20 then
      if ema20_slope > cfg.trend_strength_threshold then
        ⟨.uptrend, min (|ema20_slope| * 1000) 1⟩
      else ⟨.sideways, 0.3⟩
    else if ema20 < ema50 ∧ close < ema20 then
      if ema20_slope < -cfg.trend_strength_threshold then
        ⟨.downtrend, min (|ema20_slope| * 1000) 1⟩
      else ⟨.sideways, 0.3⟩
    else ⟨.sideways, 0.2⟩

/-- Consecutive-triple counter for the structure method's loop
(`for i in range(2, len)` with a three-bar comparison). -/
def countTriplesGo (p : ℚ → ℚ → ℚ → Bool) (a b : ℚ) : List ℚ → ℕ
  | [] => 0
  | c :: rest => (if p a b c then 1 else 0) + countTriplesGo p b c rest

/-- Number of index positions `i ≥ 2` where `p xs[i-2] xs[i-1] xs[i]` holds. -/
def countTriples (p : ℚ → ℚ → ℚ → Bool) : List ℚ → ℕ
  | a :: b :: rest => countTriplesGo p a b rest
  | _ => 0

/-- `TrendAnalyzer.identify_trend_by_structure`: majority of higher-high /
higher-low versus lower-high / lower-low triples over the trailing lookback. -/
def identify_trend_by_structure (lookback : ℕ) (df : IndicatorFrame) : TrendResult :=
  if df.candles.length < lookback then ⟨.unknown, 0⟩
  else
    let recent := takeLast lookback df.candles
    let highs := recent.map (·.high)
    let lows := recent.map (·.low)
    let higher_highs := countTriples (fun a b c => decide (c > b ∧ b > a)) highs
    let lower_highs := countTriples (fun a b c => decide (c < b ∧ b < a)) highs
    let higher_lows := countTriples (fun a b c => decide (c > b ∧ b > a)) lows
    let lower_lows := countTriples (fun a b c => decide (c < b ∧ b < a)) lows
    let uptrend_score := higher_highs + higher_lows
    let downtrend_score := lower_highs + lower_lows
    if uptrend_score > downtrend_score ∧ uptrend_score > 0 then
      ⟨.uptrend, min ((uptrend_score : ℚ) / ((lookback : ℚ) / 2)) 1⟩
    else if downtrend_score > uptrend_score ∧ downtrend_score > 0 then
      ⟨.downtrend, min ((downtrend_score : ℚ) / ((lookback : ℚ) / 2)) 1⟩
    else ⟨.sideways, 0.2⟩

/-- The fields of the comprehensive-trend dict the claims read. -/
structure ComprehensiveTrend where
  direction : TrendDirection
  strength : ℚ
  confidence : ℚ
  ema_analysis : TrendResult
  structure_analysis : TrendResult
  candles_with_indicators : IndicatorFrame
deriving DecidableEq

/-- The numeric direction map used when combining the two sub-methods. -/
def direction_val : TrendDirection → ℚ
  | .uptrend => 1
  | .sideways => 0
  | .downtrend => -1
  | .unknown => 0

/-- `TrendAnalyzer.get_comprehensive_trend`: 0.7/0.3-weighted combination of
the EMA and structure sub-methods, with ±0.3 direction thresholds. -/
def get_comprehensive_trend (cfg : TrendConfig) (candles : List Candle) :
    ComprehensiveTrend :=
  let df := add_technical_indicators cfg candles
  let ema_trend := identify_trend_by_ema cfg df
  let structure_trend := identify_trend_by_structure 10 df
  let ema_weight : ℚ := 0.7
  let structure_weight : ℚ := 0.3
  let combined := direction_val ema_trend.direction * ema_weight +
    direction_val structure_trend.direction * structure_weight
  let final_direction :=
    if combined > 0.3 then TrendDirection.uptrend
    else if combined < -0.3 then TrendDirection.downtrend
    else TrendDirection.sideways
  { direction := final_direction
  , strength := ema_trend.strength * ema_weight + structure_trend.strength * structure_weight
  , confidence := min ((ema_trend.strength + structure_trend.strength) / 2) 1
  , ema_analysis := ema_trend
  , structure_analysis := structure_trend
  , candles_with_indicators := df }

/-! ## SupportResistanceAnalyzer (src/src/analysis/support_resistance.py) -/

/-- The configuration fields `SupportResistanceAnalyzer.__init__` reads
(defaults 20 / 2 / 0.001). -/
structure SRConfig where
  sr_lookback_periods : ℕ
  sr_min_touches : ℕ
  sr_proximity_threshold : ℚ

/-- The analyzer's default configuration. -/
def defaultSRConfig : SRConfig :=
  { sr_lookback_periods := 20, sr_min_touches := 2, sr_proximity_threshold := 0.001 }

/-- One pivot dict produced by `find_pivot_points`. -/
structure Pivot where
  index : ℕ
  time : ℤ
  price : ℚ
  type : String
deriving DecidableEq

/-- Bar `i` is a pivot high: strictly above every other bar of the
symmetric radius-`w` neighborhood. -/
def isPivotHigh (highs : List ℚ) (w i : ℕ) : Bool :=
  (List.range (2 * w + 1)).all fun k =>
    let j := i - w + k
    decide (j = i) || decide (highs.getD j 0 < highs.getD i 0)

/-- Bar `i` is a pivot low: strictly below every other neighborhood bar. -/
def isPivotLow (lows : List ℚ) (w i : ℕ) : Bool :=
  (List.range (2 * w + 1)).all fun k =>
    let j := i - w + k
    decide (j = i) || decide (lows.getD j 0 > lows.getD i 0)

/-- `SupportResistanceAnalyzer.find_pivot_points` (window default 5):
pivot highs (resistance candidates) and pivot lows (support candidates)
over the interior indices `[w, len - w)`. -/
def find_pivot_points (w : ℕ) (candles : List Candle) : List Pivot × List Pivot :=
  let highs := candles.map (·.high)
  let lows := candles.map (·.low)
  let times := candles.map (·.time)
  let idxs := (List.range candles.length).filter fun i =>
    decide (w ≤ i) && decide (i + w < candles.length)
  ( (idxs.filter (fun i => isPivotHigh highs w i)).map fun i =>
      { index := i, time := times.getD i 0, price := highs.getD i 0, type := "resistance" }
  , (idxs.filter (fun i => isPivotLow lows w i)).map fun i =>
      { index := i, time := times.getD i 0, price := lows.getD i 0, type := "support" } )

/-- The counts and score returned by `calculate_level_strength`. -/
structure LevelStrengthInfo where
  touches : ℕ
  bounces : ℕ
  breaks : ℕ
  strength : ℚ
deriving DecidableEq

/-- The touch / bounce / break counting loop of `calculate_level_strength`. -/
def level_counts (prox level_price : ℚ) (candles : List Candle) : ℕ × ℕ × ℕ :=
  let threshold := level_price * prox
  candles.foldl
    (fun acc candle =>
      if candle.low ≤ level_price + threshold ∧ candle.high ≥ level_price - threshold then
        ( acc.1 + 1
        , acc.2.1 + (if |candle.close - level_price| > threshold then 1 else 0)
        , acc.2.2 + (if candle.close > level_price + threshold * 2 ∨
              candle.close < level_price - threshold * 2 then 1 else 0) )
      else acc)
    (0, 0, 0)

/-- `SupportResistanceAnalyzer.calculate_level_strength`: touches×0.3 +
bounces×0.5 − breaks×0.2, clamped to [0, 5]. -/
def calculate_level_strength (prox level_price : ℚ) (candles : List Candle) :
    LevelStrengthInfo :=
  let c := level_counts prox level_price candles
  { touches := c.1, bounces := c.2.1, breaks := c.2.2
  , strength := max 0 (min ((c.1 : ℚ) * 0.3 + (c.2.1 : ℚ) * 0.5 - (c.2.2 : ℚ) * 0.2) 5) }

/-- A scored level candidate handed to `cluster_levels`. -/
structure SRCandidate where
  price : ℚ
  type : String
  index : ℕ
  touches : ℕ
  strength : ℚ
deriving DecidableEq

/-- A cluster dict built by `cluster_levels`. -/
structure SRCluster where
  price : ℚ
  type : String
  touches : ℕ
  strength : ℚ
  last_touch : ℕ
  distance_from_current : ℚ
deriving DecidableEq

/-- The body of the clustering loop: merge the level into the first existing
cluster within the threshold (summing touches, keeping the max strength and
the latest touch index), or append a fresh cluster at the end. -/
def mergeIntoClusters (threshold current_price : ℚ) :
    List SRCluster → SRCandidate → List SRCluster
  | [], level =>
      [{ price := level.price, type := level.type, touches := level.touches
       , strength := level.strength, last_touch := level.index
       , distance_from_current := |level.price - current_price| / current_price }]
  | cluster :: rest, level =>
      if |level.price - cluster.price| ≤ threshold then
        { cluster with
          touches := cluster.touches + level.touches
          strength := max cluster.strength level.strength
          last_touch := max cluster.last_touch level.index } :: rest
      else cluster :: mergeIntoClusters threshold current_price rest level

/-- `SupportResistanceAnalyzer.cluster_levels`: sort by price, then fold the
merge-or-append loop (the threshold is `current_price ×
sr_proximity_threshold` throughout). -/
def cluster_levels (prox : ℚ) (levels : List SRCandidate) (current_price : ℚ) :
    List SRCluster :=
  let sorted_levels := stableSort (fun a b => decide (a.price ≤ b.price)) levels
  sorted_levels.foldl (mergeIntoClusters (current_price * prox) current_price) []

/-- A value of the heterogeneous dict returned by
`find_support_resistance_levels`. -/
inductive SRValue
  | levels (ls : List SRCluster)
  | optLevel (o : Option SRCluster)
  | num (q : ℚ)
deriving DecidableEq

/-- The result dict of `find_support_resistance_levels`, modelled with its
keys explicit because a claim is about which keys it carries. -/
def SRAnalysis : Type := List (String × SRValue)

/-- `SupportResistanceAnalyzer.find_support_resistance_levels`: pivots on the
trailing lookback window, candidates kept at `min_touches`, clustered,
sorted by distance from the current close, top five reported per side plus
the nearest support below / resistance above the current price. -/
def find_support_resistance_levels (cfg : SRConfig) (candles : List Candle) :
    SRAnalysis :=
  if candles.length < cfg.sr_lookback_periods then
    [ ("support_levels", SRValue.levels [])
    , ("resistance_levels", SRValue.levels [])
    , ("nearest_support", SRValue.optLevel none)
    , ("nearest_resistance", SRValue.optLevel none) ]
  else
    let recent := takeLast cfg.sr_lookback_periods candles
    let current_price := (recent.getLastD candle0).close
    let pivots := find_pivot_points 5 recent
    let resistance_candidates := pivots.1.filterMap fun pv =>
      let info := calculate_level_strength cfg.sr_proximity_threshold pv.price recent
      if info.touches ≥ cfg.sr_min_touches then
        some { price := pv.price, type := "resistance", index := pv.index
             , touches := info.touches, strength := info.strength }
      else (none : Option SRCandidate)
    let support_candidates := pivots.2.filterMap fun pv =>
      let info := calculate_level_strength cfg.sr_proximity_threshold pv.price recent
      if info.touches ≥ cfg.sr_min_touches then
        some { price := pv.price, type := "support", index := pv.index
             , touches := info.touches, strength := info.strength }
      else (none : Option SRCandidate)
    let resistance_levels := stableSort
      (fun a b => decide (a.distance_from_current ≤ b.distance_from_current))
      (cluster_levels cfg.sr_proximity_threshold resistance_candidates current_price)
    let support_levels := stableSort
      (fun a b => decide (a.distance_from_current ≤ b.distance_from_current))
      (cluster_levels cfg.sr_proximity_threshold support_candidates current_price)
    let nearest_resistance := resistance_levels.find? fun l => decide (l.price > current_price)
    let nearest_support := support_levels.find? fun l => decide (l.price < current_price)
    [ ("support_levels", SRValue.levels (support_levels.take 5))
    , ("resistance_levels", SRValue.levels (resistance_levels.take 5))
    , ("nearest_support", SRValue.optLevel nearest_support)
    , ("nearest_resistance", SRValue.optLevel nearest_resistance)
    , ("current_price", SRValue.num current_price) ]

/-! ## StrengthCalculator (src/src/analysis/strength_calculator.py)

`__init__` fixes the weights {base 0.4, body 0.2, volume 0.2, volatility
0.1} and the thresholds (body tier boundary 1.2, volume tier boundary 1.5,
S/R proximity 0.001); none of them are read from the config dict. -/

/-- The tier table of `_calculate_body_comparison` on the body quotient. -/
def bodyTiers (q : ℚ) : ℚ :=
  if q ≥ 2 then 1
  else if q ≥ 1.5 then 0.8
  else if q ≥ 1.2 then 0.6
  else if q ≥ 1 then 0.4
  else 0.2

/-- `StrengthCalculator._calculate_body_comparison`. -/
def calculate_body_comparison (candles : List Candle) : ℚ :=
  if candles.length < 2 then 0
  else
    let current_candle := candles.getLastD candle0
    let previous_candle := candles.getD (candles.length - 2) candle0
    let current_body := |current_candle.close - current_candle.«open»|
    let previous_body := |previous_candle.close - previous_candle.«open»|
    if previous_body = 0 then 0.5
    else bodyTiers (current_body / previous_body)

/-- The tier table of `_calculate_volume_spike` on the volume quotient. -/
def volumeTiers (q : ℚ) : ℚ :=
  if q ≥ 3 then 1
  else if q ≥ 2.5 then 0.9
  else if q ≥ 2 then 0.8
  else if q ≥ 1.5 then 0.6
  else if q ≥ 1.2 then 0.4
  else 0.2

/-- `StrengthCalculator._calculate_volume_spike`: current volume against the
mean of the ten preceding volumes. -/
def calculate_volume_spike (candles : List Candle) : ℚ :=
  if candles.length < 11 then 0
  else
    let current_volume := (candles.getLastD candle0).volume
    let avg_volume := pyMean ((sliceBeforeLast 10 candles).map (·.volume))
    if avg_volume = 0 then 0.5
    else volumeTiers (current_volume / avg_volume)

/-- True ranges of consecutive bars (`max(h-l, |h-pc|, |l-pc|)` for each bar
after the first). -/
def trueRangesGo (prev : Candle) : List Candle → List ℚ
  | [] => []
  | c :: rest =>
      max (c.high - c.low) (max |c.high - prev.close| |c.low - prev.close|) ::
        trueRangesGo c rest

/-- The `atr_data` list built by `_calculate_volatility_strength`. -/
def trueRanges : List Candle → List ℚ
  | [] => []
  | c :: rest => trueRangesGo c rest

/-- The tier table of `_calculate_volatility_strength` on the TR/ATR quotient. -/
def volatilityTiers (q : ℚ) : ℚ :=
  if q ≥ 2.5 then 1
  else if q ≥ 2 then 0.8
  else if q ≥ 1.5 then 0.6
  else if q ≥ 1.2 then 0.4
  else 0.2

/-- `StrengthCalculator._calculate_volatility_strength`: current true range
against the mean of the last fourteen true ranges. -/
def calculate_volatility_strength (candles : List Candle) : ℚ :=
  if candles.length < 15 then 0
  else
    let atr_data := trueRanges candles
    if atr_data.length < 14 then 0.5
    else
      let atr := pyMean (takeLast 14 atr_data)
      let current_candle := candles.getLastD candle0
      let prev_close := (candles.getD (candles.length - 2) candle0).close
      let current_tr := max (current_candle.high - current_candle.low)
        (max |current_candle.high - prev_close| |current_candle.low - prev_close|)
      if atr = 0 then 0.5
      else volatilityTiers (current_tr / atr)

/-- `StrengthCalculator._calculate_sr_proximity`: 1 when the current close
is within the 0.001 relative threshold of some supplied level, else 0. -/
def calculate_sr_proximity (current_candle : Candle) (sr_levels : List ℚ) : ℚ :=
  if sr_levels = [] then 0
  else
    let current_price := current_candle.close
    match sr_levels.find? (fun lv => decide (|current_price - lv| / current_price ≤ 0.001)) with
    | some _ => 1
    | none => 0

/-- The numeric fields of the dict `calculate_enhanced_strength` returns. -/
structure StrengthResult where
  total_strength : ℚ
  base_strength : ℚ
  body_strength : ℚ
  volume_strength : ℚ
  volatility_strength : ℚ
  sr_bonus : ℚ
deriving DecidableEq

/-- `StrengthCalculator._basic_strength`: the fallback result. -/
def basic_strength (base : ℚ) : StrengthResult :=
  { total_strength := base, base_strength := base, body_strength := 0
  , volume_strength := 0, volatility_strength := 0, sr_bonus := 0 }

/-- `StrengthCalculator.calculate_enhanced_strength`: weighted composite
(0.4 base + 0.2 body + 0.2 volume + 0.1 volatility), +0.2 when the S/R
proximity bonus fires, clamped to [0, 1]; below twenty candles the basic
fallback is returned (`pattern_strength` models `pattern_info.get('strength',
0.5)`). -/
def calculate_enhanced_strength (candles : List Candle) (pattern_strength : ℚ)
    (sr_levels : List ℚ) : StrengthResult :=
  if candles.length < 20 then basic_strength pattern_strength
  else
    let current_candle := candles.getLastD candle0
    let base_strength := pattern_strength
    let body_strength := calculate_body_comparison candles
    let volume_strength := calculate_volume_spike candles
    let volatility_strength := calculate_volatility_strength candles
    let sr_bonus := calculate_sr_proximity current_candle sr_levels
    let t1 := base_strength * 0.4 + body_strength * 0.2 + volume_strength * 0.2 +
      volatility_strength * 0.1
    let t2 := if sr_bonus > 0 then t1 + 0.2 else t1
    { total_strength := min (max t2 0) 1
    , base_strength := base_strength, body_strength := body_strength
    , volume_strength := volume_strength, volatility_strength := volatility_strength
    , sr_bonus := sr_bonus }

/-! ## EnhancedPatternManager (src/src/analysis/enhanced_pattern_manager.py) -/

/-- Line 150 of `_enhance_pattern_with_context`: the level list handed to the
strength calculator is read from the `'levels'` key of the S/R analysis dict
(with `[]` as the `.get` default). -/
def enhance_sr_levels (sr_analysis : SRAnalysis) : List ℚ :=
  match List.lookup "levels" sr_analysis with
  | some (SRValue.levels ls) => ls.map (·.price)
  | _ => []

/-- `EnhancedPatternManager._classify_pattern_by_context` as a function of
the pattern's `type` field and the analyzed trend direction. -/
def classify_pattern_by_context (pattern_type : String)
    (trend_direction : TrendDirection) : String :=
  if pattern_type = "bullish" ∧ trend_direction = TrendDirection.uptrend then
    "trend_continuation"
  else if pattern_type = "bearish" ∧ trend_direction = TrendDirection.downtrend then
    "trend_continuation"
  else if pattern_type = "bullish" ∧ trend_direction = TrendDirection.downtrend then
    "trend_reversal"
  else if pattern_type = "bearish" ∧ trend_direction = TrendDirection.uptrend then
    "trend_reversal"
  else if trend_direction = TrendDirection.sideways then "range_trading"
  else "neutral"

/-- The context-filtering configuration read in
`EnhancedPatternManager.__init__` / `_should_keep_pattern`. -/
structure FilterConfig where
  enable_trend_filtering : Bool
  enable_sr_filtering : Bool
  allow_reversal_patterns : Bool
  reversal_pattern_names : List String
  min_enhanced_strength : ℚ

/-- The `trend_context` sub-dict fields `_should_keep_pattern` reads. -/
structure TrendContext where
  direction : String
  strength : ℚ
deriving DecidableEq

/-- The `sr_context` flags `_should_keep_pattern` reads. -/
structure SRContext where
  near_resistance : Bool
  near_support : Bool
deriving DecidableEq

/-- The fields of an enriched pattern dict that `_should_keep_pattern` reads
or writes. -/
structure EnhancedPattern where
  classification : String
  pattern_id : String
  trend_context : TrendContext
  sr_context : SRContext
  strength : ℚ
  enhanced_strength : ℚ
deriving DecidableEq

/-- `EnhancedPatternManager._should_keep_pattern`, with the in-place
`pattern['strength'] *= 0.7` mutation made explicit in the second component:
returns (keep?, resulting strength).  The early returns of the source are
rendered as a guard chain with the same semantics. -/
def should_keep_pattern (cfg : FilterConfig) (pattern : EnhancedPattern) : Bool × ℚ :=
  if ¬cfg.enable_trend_filtering ∧ ¬cfg.enable_sr_filtering then (true, pattern.strength)
  else if cfg.enable_trend_filtering ∧ pattern.trend_context.strength > 0.6 ∧
      pattern.classification = "trend_reversal" ∧ ¬cfg.allow_reversal_patterns then
    (false, pattern.strength)
  else if cfg.enable_trend_filtering ∧ pattern.trend_context.strength > 0.6 ∧
      pattern.classification = "trend_reversal" ∧
      ¬(pattern.sr_context.near_resistance ∨ pattern.sr_context.near_support) then
    (false, pattern.strength)
  else
    let strength2 :=
      if cfg.enable_sr_filtering ∧ pattern.classification = "trend_reversal" ∧
          pattern.pattern_id ∈ cfg.reversal_pattern_names ∧
          ¬(pattern.sr_context.near_resistance ∨ pattern.sr_context.near_support) then
        pattern.strength * 0.7
      else pattern.strength
    if pattern.enhanced_strength < cfg.min_enhanced_strength then (false, strength2)
    else (true, strength2)

/-! ## Claims -/

/-- The concrete pattern of the dedup scenario: symbol EURUSD, timeframe H1,
kind hammer, anchor close 1.23450. -/
def eurusdHammer : AlertPattern :=
  { symbol := "EURUSD", timeframe := "H1", pattern := "hammer", candle_close := 1.2345 }

/-- C1: `is_duplicate` is true iff the cache holds a record under the
pattern's fingerprint (a function of symbol, timeframe, pattern name and
candle_close only) whose age is strictly below the cooldown; and for the
EURUSD/H1/hammer/1.23450 pattern with a 3600 s cooldown it is false on an
empty cache, true at any age below 3600 s after `add_alert`, and false again
at any age above 3600 s. -/
theorem C1_dedup_cooldown :
    (∀ (cooldown : ℚ) (cache : AlertCacheState) (now : ℚ) (p : AlertPattern),
      is_duplicate cooldown cache now p = true ↔
        ∃ e, cacheLookup cache (generate_alert_key p) = some e ∧
          now - e.timestamp < cooldown) ∧
    (∀ t : ℚ, is_duplicate 3600 [] t eurusdHammer = false) ∧
    (∀ t0 t1 : ℚ, t1 - t0 < 3600 →
      is_duplicate 3600 (add_alert [] t0 eurusdHammer) t1 eurusdHammer = true) ∧
    (∀ t0 t2 : ℚ, t2 - t0 > 3600 →
      is_duplicate 3600 (add_alert [] t0 eurusdHammer) t2 eurusdHammer = false) := by
  refine ⟨?_, ?_, ?_, ?_⟩
  · intro cooldown cache now p
    unfold is_duplicate
    cases h : cacheLookup cache (generate_alert_key p) with
    | none => simp [h]
    | some e => simp [h]
  · intro t
    rfl
  · intro t0 t1 h
    unfold is_duplicate add_alert cacheInsert cacheLookup
    simp [List.lookup, h]
  · intro t0 t2 h
    unfold is_duplicate add_alert cacheInsert cacheLookup
    simp [List.lookup]
    linarith

/-- C1 witness: the cooldown scenario at explicit times 0 / 1 / 4000. -/
theorem C1_dedup_cooldown_witness :
    is_duplicate 3600 (add_alert [] 0 eurusdHammer) 1 eurusdHammer = true ∧
    is_duplicate 3600 (add_alert [] 0 eurusdHammer) 4000 eurusdHammer = false :=
  ⟨C1_dedup_cooldown.2.2.1 0 1 (by norm_num),
   C1_dedup_cooldown.2.2.2 0 4000 (by norm_num)⟩

/-- C3: the context classification follows exactly the fixed table over all
3 polarities × 4 trend directions: bullish & uptrend and bearish & downtrend
give trend_continuation, bullish & downtrend and bearish & uptrend give
trend_reversal, any polarity & sideways gives range_trading, and every
remaining combination gives neutral. -/
theorem C3_classification_table :
    classify_pattern_by_context "bullish" TrendDirection.uptrend = "trend_continuation" ∧
    classify_pattern_by_context "bearish" TrendDirection.downtrend = "trend_continuation" ∧
    classify_pattern_by_context "bullish" TrendDirection.downtrend = "trend_reversal" ∧
    classify_pattern_by_context "bearish" TrendDirection.uptrend = "trend_reversal" ∧
    classify_pattern_by_context "bullish" TrendDirection.sideways = "range_trading" ∧
    classify_pattern_by_context "bearish" TrendDirection.sideways = "range_trading" ∧
    classify_pattern_by_context "neutral" TrendDirection.sideways = "range_trading" ∧
    classify_pattern_by_context "bullish" TrendDirection.unknown = "neutral" ∧
    classify_pattern_by_context "bearish" TrendDirection.unknown = "neutral" ∧
    classify_pattern_by_context "neutral" TrendDirection.uptrend = "neutral" ∧
    classify_pattern_by_context "neutral" TrendDirection.downtrend = "neutral" ∧
    classify_pattern_by_context "neutral" TrendDirection.unknown = "neutral" := by
  refine ⟨?_, ?_, ?_, ?_, ?_, ?_, ?_, ?_, ?_, ?_, ?_, ?_⟩ <;> rfl

/-- A filter configuration with trend filtering on and reversal patterns
explicitly allowed (the default configuration of the manager). -/
def cfgAllowReversal : FilterConfig :=
  { enable_trend_filtering := true, enable_sr_filtering := true
  , allow_reversal_patterns := true
  , reversal_pattern_names := ["hammer", "shooting_star", "bullish_engulfing", "bearish_engulfing"]
  , min_enhanced_strength := 0.4 }

/-- A reversal-classified hammer in a strong trend, away from every S/R
level, with composite strength well above the minimum. -/
def strongTrendReversalPat : EnhancedPattern :=
  { classification := "trend_reversal", pattern_id := "hammer"
  , trend_context := { direction := "uptrend", strength := 0.7 }
  , sr_context := { near_resistance := false, near_support := false }
  , strength := 0.8, enhanced_strength := 0.9 }

/-- C4 counterexample: with trend filtering enabled, trend strength 0.7 >
0.6, classification trend_reversal, no nearby S/R level and
`allow_reversal_patterns` set, `_should_keep_pattern` still drops the
pattern (the claim predicts the trend filter keeps it in this case). -/
theorem C4_allow_reversal_counterexample :
    cfgAllowReversal.enable_trend_filtering = true ∧
    cfgAllowReversal.allow_reversal_patterns = true ∧
    strongTrendReversalPat.trend_context.strength > 0.6 ∧
    strongTrendReversalPat.classification = "trend_reversal" ∧
    strongTrendReversalPat.sr_context.near_resistance = false ∧
    strongTrendReversalPat.sr_context.near_support = false ∧
    strongTrendReversalPat.enhanced_strength ≥ cfgAllowReversal.min_enhanced_strength ∧
    (should_keep_pattern cfgAllowReversal strongTrendReversalPat).fst = false := by
  refine ⟨rfl, rfl, by norm_num [strongTrendReversalPat], rfl, rfl, rfl,
    by norm_num [strongTrendReversalPat, cfgAllowReversal], ?_⟩
  norm_num [should_keep_pattern, strongTrendReversalPat, cfgAllowReversal]

/-- C4 (amended): when trend filtering is enabled, the trend strength
exceeds 0.6, the classification is trend_reversal and the pattern is near
no S/R level, `_should_keep_pattern` drops the pattern regardless of
`allow_reversal_patterns` (the flag only spares reversal patterns that are
near an S/R level). -/
theorem C4_strong_trend_reversal_dropped (cfg : FilterConfig) (pat : EnhancedPattern)
    (h1 : cfg.enable_trend_filtering = true)
    (h2 : pat.trend_context.strength > 0.6)
    (h3 : pat.classification = "trend_reversal")
    (h4 : pat.sr_context.near_resistance = false)
    (h5 : pat.sr_context.near_support = false) :
    (should_keep_pattern cfg pat).fst = false := by
  unfold should_keep_pattern
  split_ifs with g1 g2 g3 <;> simp_all

/-- C4 witness: the amended drop rule fired at a concrete configuration
(reversal patterns not allowed) and pattern. -/
theorem C4_strong_trend_reversal_dropped_witness :
    (should_keep_pattern
      { cfgAllowReversal with allow_reversal_patterns := false }
      strongTrendReversalPat).fst = false :=
  C4_strong_trend_reversal_dropped _ _ rfl (by norm_num [strongTrendReversalPat]) rfl rfl rfl

/-- Under the `Doji.detect` shadow guards (both shadows at least 10% of a
nonzero range) the classifier can only answer long_legged or standard. -/
theorem classify_doji_of_shadow_guards (u l rt : ℚ) (hrt : rt ≠ 0)
    (hu : ¬ u < rt * 0.1) (hl : ¬ l < rt * 0.1) :
    classify_doji u l rt = "long_legged" ∨ classify_doji u l rt = "standard" := by
  unfold classify_doji
  rw [if_neg hrt]
  dsimp only
  split_ifs with hd hg hll
  · rcases lt_or_gt_of_ne hrt with hneg | hpos
    · have h2 : l < 0.6 * rt := (lt_div_iff_of_neg hneg).mp hd.2
      linarith [not_lt.mp hl]
    · have h1 : u < 0.1 * rt := (div_lt_iff₀ hpos).mp hd.1
      linarith [not_lt.mp hu]
  · rcases lt_or_gt_of_ne hrt with hneg | hpos
    · have h2 : u < 0.6 * rt := (lt_div_iff_of_neg hneg).mp hg.2
      linarith [not_lt.mp hu]
    · have h1 : l < 0.1 * rt := (div_lt_iff₀ hpos).mp hg.1
      linarith [not_lt.mp hl]
  · exact Or.inl rfl
  · exact Or.inr rfl

/-- C10: every match `Doji.detect` returns carries subtype long_legged or
standard: dragonfly and gravestone are unreachable (so the +0.1 strength
bonus for them never fires), because detection demands both shadows at
least 10% of the range while those subtypes demand a shadow fraction
strictly below 0.1; moreover the subtype is exactly the classifier's answer
on the detected candle's shadows. -/
theorem C10_doji_subtype_reachability (thr : ℚ) (candles : List Candle) (m : DojiMatch)
    (h : doji_detect thr candles = some m) :
    (m.subtype = "long_legged" ∨ m.subtype = "standard") ∧
    m.subtype ≠ "dragonfly" ∧ m.subtype ≠ "gravestone" ∧
    classify_doji
      ((candles.getLastD candle0).high -
        max (candles.getLastD candle0).«open» (candles.getLastD candle0).close)
      (min (candles.getLastD candle0).«open» (candles.getLastD candle0).close -
        (candles.getLastD candle0).low)
      ((candles.getLastD candle0).high - (candles.getLastD candle0).low) = m.subtype := by
  obtain ⟨cd, hcd⟩ : ∃ cd, candles.getLastD candle0 = cd := ⟨_, rfl⟩
  rw [hcd]
  unfold doji_detect at h
  rw [hcd] at h
  dsimp only at h
  split at h
  · exact Option.noConfusion h
  split at h
  · exact Option.noConfusion h
  rename_i hrt
  split at h
  · split at h
    · exact Option.noConfusion h
    split at h
    · exact Option.noConfusion h
    rename_i hsh
    have hsh2 := not_or.mp hsh
    have hcls := classify_doji_of_shadow_guards _ _ _ hrt hsh2.1 hsh2.2
    have hm := Option.some.inj h
    subst hm
    refine ⟨hcls, ?_, ?_, rfl⟩
    · show classify_doji _ _ _ ≠ "dragonfly"
      rcases hcls with hc | hc <;> rw [hc] <;> decide
    · show classify_doji _ _ _ ≠ "gravestone"
      rcases hcls with hc | hc <;> rw [hc] <;> decide
  · split at h
    · exact Option.noConfusion h
    split at h
    · exact Option.noConfusion h
    rename_i hsh
    have hsh2 := not_or.mp hsh
    have hcls := classify_doji_of_shadow_guards _ _ _ hrt hsh2.1 hsh2.2
    have hm := Option.some.inj h
    subst hm
    refine ⟨hcls, ?_, ?_, rfl⟩
    · show classify_doji _ _ _ ≠ "dragonfly"
      rcases hcls with hc | hc <;> rw [hc] <;> decide
    · show classify_doji _ _ _ ≠ "gravestone"
      rcases hcls with hc | hc <;> rw [hc] <;> decide

/-- A concrete doji candle: zero body, range 2, both shadows 50% of it. -/
def dojiCandle : Candle :=
  { «open» := 100, high := 101, low := 99, close := 100, volume := 1000, time := 0 }

/-- The match `Doji.detect` produces on `dojiCandle` alone. -/
def dojiMatchEx : DojiMatch :=
  { pattern := "Doji", type := "neutral", subtype := "long_legged"
  , candle_time := 0, candle_close := 100, strength := 0.5 }

/-- C10 witness: a concrete detected doji, classified long_legged. -/
theorem C10_doji_subtype_reachability_witness :
    doji_detect 0.1 [dojiCandle] = some dojiMatchEx ∧
    (dojiMatchEx.subtype = "long_legged" ∨ dojiMatchEx.subtype = "standard") := by
  have hdet : doji_detect 0.1 [dojiCandle] = some dojiMatchEx := by
    norm_num [doji_detect, dojiCandle, dojiMatchEx, classify_doji,
      doji_calculate_strength, candle0, List.getLastD,
      show ¬(("long_legged" : String) = "dragonfly" ∨ ("long_legged" : String) = "gravestone")
        from by decide]
  exact ⟨hdet, (C10_doji_subtype_reachability 0.1 [dojiCandle] dojiMatchEx hdet).1⟩

/-- A five-candle series (flat closes), shorter than the default long EMA
span of 50. -/
def shortSeries5 : List Candle :=
  [ { «open» := 100, high := 101, low := 99, close := 100, volume := 10, time := 0 }
  , { «open» := 100, high := 101, low := 99, close := 100, volume := 10, time := 1 }
  , { «open» := 100, high := 101, low := 99, close := 100, volume := 10, time := 2 }
  , { «open» := 100, high := 101, low := 99, close := 100, volume := 10, time := 3 }
  , { «open» := 100, high := 101, low := 99, close := 100, volume := 10, time := 4 } ]

/-- C2 counterexample: on a five-candle series (shorter than the long EMA
span) `get_comprehensive_trend` reports direction sideways, not unknown as
the claim states: both sub-methods answer unknown, which the ±0.3 combiner
maps to sideways. -/
theorem C2_short_history_counterexample :
    shortSeries5.length < defaultTrendConfig.ema_long_period ∧
    (get_comprehensive_trend defaultTrendConfig shortSeries5).direction =
      TrendDirection.sideways ∧
    (get_comprehensive_trend defaultTrendConfig shortSeries5).direction ≠
      TrendDirection.unknown := by
  refine ⟨by norm_num [shortSeries5, defaultTrendConfig], ?_, ?_⟩
  · norm_num [get_comprehensive_trend, add_technical_indicators,
      identify_trend_by_ema, identify_trend_by_structure, direction_val,
      shortSeries5, defaultTrendConfig]
  · norm_num [get_comprehensive_trend, add_technical_indicators,
      identify_trend_by_ema, identify_trend_by_structure, direction_val,
      shortSeries5, defaultTrendConfig]
    decide

/-- C2 (amended): for every candle series shorter than both the long EMA
span and the structure lookback of 10 (such as the claim's five-candle
example), `get_comprehensive_trend` returns direction = sideways with
strength 0 and confidence 0, and (being a total function) raises no
exception. -/
theorem C2_short_history_trend (cfg : TrendConfig) (candles : List Candle)
    (h1 : candles.length < cfg.ema_long_period) (h2 : candles.length < 10) :
    (get_comprehensive_trend cfg candles).direction = TrendDirection.sideways ∧
    (get_comprehensive_trend cfg candles).strength = 0 ∧
    (get_comprehensive_trend cfg candles).confidence = 0 := by
  have he : identify_trend_by_ema cfg (add_technical_indicators cfg candles) =
      ⟨TrendDirection.unknown, 0⟩ := by
    unfold identify_trend_by_ema add_technical_indicators
    simp [h1]
  have hs : identify_trend_by_structure 10 (add_technical_indicators cfg candles) =
      ⟨TrendDirection.unknown, 0⟩ := by
    unfold identify_trend_by_structure add_technical_indicators
    simp [h2]
  unfold get_comprehensive_trend
  dsimp only
  rw [he, hs]
  norm_num [direction_val]

/-- C2 witness: the amended statement at the five-candle example and the
default configuration. -/
theorem C2_short_history_trend_witness :
    (get_comprehensive_trend defaultTrendConfig shortSeries5).direction =
      TrendDirection.sideways ∧
    (get_comprehensive_trend defaultTrendConfig shortSeries5).strength = 0 ∧
    (get_comprehensive_trend defaultTrendConfig shortSeries5).confidence = 0 :=
  C2_short_history_trend defaultTrendConfig shortSeries5
    (by norm_num [shortSeries5, defaultTrendConfig])
    (by norm_num [shortSeries5])

/-- A short-span trend configuration (spans 2/3, default thresholds),
within the claim's scope since it quantifies over the configured spans. -/
def emaCfg23 : TrendConfig :=
  { ema_short_period := 2, ema_long_period := 3
  , trend_strength_threshold := 0.0001, sideways_threshold := 0.0005 }

/-- Three candles: two rising closes then a dip; the short EMA ends above
the long EMA by far more than the sideways threshold, yet the close sits
below the short EMA. -/
def risingThenDipSeries : List Candle :=
  [ { «open» := 100, high := 101, low := 99, close := 100, volume := 10, time := 0 }
  , { «open» := 100, high := 201, low := 99, close := 200, volume := 10, time := 1 }
  , { «open» := 200, high := 201, low := 149, close := 150, volume := 10, time := 2 } ]

/-- C5 counterexample: a series of length ≥ long span where the relative
EMA gap is ≥ the sideways threshold and emaShort > emaLong — the claim
predicts uptrend — but `identify_trend_by_ema` answers sideways, because
its actual rule also demands close > emaShort and a slope above the
strength threshold. -/
theorem C5_ema_direction_counterexample :
    risingThenDipSeries.length ≥ emaCfg23.ema_long_period ∧
    (calculate_ema emaCfg23.ema_short_period (risingThenDipSeries.map (·.close))).getLastD 0 >
      (calculate_ema emaCfg23.ema_long_period (risingThenDipSeries.map (·.close))).getLastD 0 ∧
    |(calculate_ema emaCfg23.ema_short_period (risingThenDipSeries.map (·.close))).getLastD 0 -
        (calculate_ema emaCfg23.ema_long_period (risingThenDipSeries.map (·.close))).getLastD 0| /
      (calculate_ema emaCfg23.ema_long_period (risingThenDipSeries.map (·.close))).getLastD 0 ≥
      emaCfg23.sideways_threshold ∧
    (identify_trend_by_ema emaCfg23
      (add_technical_indicators emaCfg23 risingThenDipSeries)).direction =
      TrendDirection.sideways := by
  norm_num [risingThenDipSeries, emaCfg23, calculate_ema, emaGo, List.getLastD,
    identify_trend_by_ema, add_technical_indicators, candle0]
  rw [abs_of_pos (show (0 : ℚ) < 50 / 9 by norm_num)]
  norm_num

/-- The EMA-method direction rule the source actually implements (the
amended form of claim C5): uptrend iff emaShort > emaLong, close > emaShort
and the emaShort slope exceeds the strength threshold; downtrend in the
mirrored case; sideways otherwise (the sideways_threshold plays no role). -/
def emaDirRule (cfg : TrendConfig) (candles : List Candle) : TrendDirection :=
  let closes := candles.map (·.close)
  let emaS := (calculate_ema cfg.ema_short_period closes).getLastD 0
  let emaL := (calculate_ema cfg.ema_long_period closes).getLastD 0
  let cl := (candles.getLastD candle0).close
  let prev :=
    if candles.length > 1 then
      (calculate_ema cfg.ema_short_period closes).getD (candles.length - 2) 0
    else emaS
  let slope := if prev ≠ 0 then (emaS - prev) / prev else 0
  if emaS > emaL ∧ cl > emaS then
    if slope > cfg.trend_strength_threshold then TrendDirection.uptrend
    else TrendDirection.sideways
  else if emaS < emaL ∧ cl < emaS then
    if slope < -cfg.trend_strength_threshold then TrendDirection.downtrend
    else TrendDirection.sideways
  else TrendDirection.sideways

/-- C5 (amended): for every configuration and every series at least as long
as the long EMA span, the EMA sub-method's direction follows `emaDirRule`:
the EMA relation must be confirmed by the close's position relative to the
short EMA and by the short-EMA slope against the strength threshold;
otherwise the answer is sideways. -/
theorem C5_ema_direction_rule (cfg : TrendConfig) (candles : List Candle)
    (hlen : cfg.ema_long_period ≤ candles.length) :
    (identify_trend_by_ema cfg (add_technical_indicators cfg candles)).direction =
      emaDirRule cfg candles := by
  unfold identify_trend_by_ema add_technical_indicators emaDirRule
  dsimp only
  rw [if_neg (not_lt.mpr hlen)]
  split_ifs <;> rfl

/-- C5 witness: the amended rule evaluated at the concrete configuration
and series of the counterexample. -/
theorem C5_ema_direction_rule_witness :
    (identify_trend_by_ema emaCfg23
      (add_technical_indicators emaCfg23 risingThenDipSeries)).direction =
      emaDirRule emaCfg23 risingThenDipSeries :=
  C5_ema_direction_rule emaCfg23 risingThenDipSeries
    (by norm_num [emaCfg23, risingThenDipSeries])

/-- C8: two same-type level candidates whose prices differ by at most the
proximity threshold (current price × sr_proximity_threshold) are merged by
`cluster_levels` into a single cluster whose touches is the sum and whose
strength is the max of the inputs. -/
theorem C8_cluster_merge (prox cp : ℚ) (l1 l2 : SRCandidate)
    (htype : l1.type = l2.type)
    (hnear : |l1.price - l2.price| ≤ cp * prox) :
    ∃ c : SRCluster,
      cluster_levels prox [l1, l2] cp = [c] ∧
      c.touches = l1.touches + l2.touches ∧
      c.strength = max l1.strength l2.strength ∧
      c.type = l1.type := by
  by_cases hp : l1.price ≤ l2.price
  · have hsort : stableSort (fun a b => decide (a.price ≤ b.price)) [l1, l2] = [l1, l2] := by
      simp [stableSort, insertStable, hp]
    have habs : |l2.price - l1.price| ≤ cp * prox := by rwa [abs_sub_comm]
    unfold cluster_levels
    rw [hsort]
    simp only [List.foldl, mergeIntoClusters]
    rw [if_pos habs]
    exact ⟨_, rfl, rfl, rfl, rfl⟩
  · have hp2 : l2.price ≤ l1.price := le_of_not_le hp
    have hsort : stableSort (fun a b => decide (a.price ≤ b.price)) [l1, l2] = [l2, l1] := by
      simp [stableSort, insertStable, hp]
    unfold cluster_levels
    rw [hsort]
    simp only [List.foldl, mergeIntoClusters]
    rw [if_pos hnear]
    exact ⟨_, rfl, Nat.add_comm l2.touches l1.touches, max_comm l2.strength l1.strength,
      htype.symm⟩

/-- C8 witness: two concrete support candidates 0.05 apart, within the
0.1 threshold of a current price of 100 at the default 0.001 proximity. -/
theorem C8_cluster_merge_witness :
    ∃ c : SRCluster,
      cluster_levels 0.001
        [ { price := 100, type := "support", index := 3, touches := 3, strength := 2 }
        , { price := 100.05, type := "support", index := 7, touches := 2, strength := 1.5 } ]
        100 = [c] ∧
      c.touches = 3 + 2 ∧
      c.strength = max 2 1.5 ∧
      c.type = "support" :=
  C8_cluster_merge 0.001 100
    { price := 100, type := "support", index := 3, touches := 3, strength := 2 }
    { price := 100.05, type := "support", index := 7, touches := 2, strength := 1.5 }
    rfl (by norm_num [abs_le])

/-- C9: `find_support_resistance_levels` never produces a `'levels'` key
(only support_levels / resistance_levels / nearest_support /
nearest_resistance / current_price), so the level list the orchestrator
builds from `sr_analysis.get('levels', [])` is always empty, the S/R
proximity bonus of every enhanced pattern is 0, and the +0.2 bonus never
enters the composite strength. -/
theorem C9_sr_levels_key_mismatch :
    (∀ (cfg : SRConfig) (candles : List Candle),
      List.lookup "levels" (find_support_resistance_levels cfg candles) = none) ∧
    (∀ (cfg : SRConfig) (candles : List Candle),
      enhance_sr_levels (find_support_resistance_levels cfg candles) = []) ∧
    (∀ cc : Candle, calculate_sr_proximity cc [] = 0) ∧
    (∀ (candles : List Candle) (ps : ℚ),
      (calculate_enhanced_strength candles ps []).sr_bonus = 0) ∧
    (∀ (candles : List Candle) (ps : ℚ),
      (calculate_enhanced_strength candles ps []).total_strength =
        if candles.length < 20 then ps
        else
          min (max (ps * 0.4 + calculate_body_comparison candles * 0.2 +
            calculate_volume_spike candles * 0.2 +
            calculate_volatility_strength candles * 0.1) 0) 1) := by
  have hkey : ∀ (cfg : SRConfig) (candles : List Candle),
      List.lookup "levels" (find_support_resistance_levels cfg candles) = none := by
    intro cfg candles
    unfold find_support_resistance_levels
    split <;> rfl
  have hprox : ∀ cc : Candle, calculate_sr_proximity cc [] = 0 := fun _ => rfl
  refine ⟨hkey, ?_, hprox, ?_, ?_⟩
  · intro cfg candles
    unfold enhance_sr_levels
    rw [hkey cfg candles]
  · intro candles ps
    unfold calculate_enhanced_strength
    by_cases h : candles.length < 20
    · rw [if_pos h]; rfl
    · rw [if_neg h]
      dsimp only
      norm_num [hprox]
  · intro candles ps
    unfold calculate_enhanced_strength
    by_cases h : candles.length < 20
    · rw [if_pos h, if_pos h]; rfl
    · rw [if_neg h, if_neg h]
      dsimp only
      norm_num [hprox]

/-- The driving quotient of `_calculate_body_comparison`: previous body. -/
def prevBodyOf (candles : List Candle) : ℚ :=
  |(candles.getD (candles.length - 2) candle0).close -
    (candles.getD (candles.length - 2) candle0).«open»|

/-- The driving quotient of `_calculate_body_comparison`: current body over
previous body. -/
def bodyQuot (candles : List Candle) : ℚ :=
  |(candles.getLastD candle0).close - (candles.getLastD candle0).«open»| /
    prevBodyOf candles

/-- The trailing ten-bar average volume of `_calculate_volume_spike`. -/
def avgVolOf (candles : List Candle) : ℚ :=
  pyMean ((sliceBeforeLast 10 candles).map (·.volume))

/-- The driving quotient of `_calculate_volume_spike`. -/
def volumeQuot (candles : List Candle) : ℚ :=
  (candles.getLastD candle0).volume / avgVolOf candles

/-- The 14-period average true range of `_calculate_volatility_strength`. -/
def atrOf (candles : List Candle) : ℚ :=
  pyMean (takeLast 14 (trueRanges candles))

/-- The current true range of `_calculate_volatility_strength`. -/
def currentTrOf (candles : List Candle) : ℚ :=
  max ((candles.getLastD candle0).high - (candles.getLastD candle0).low)
    (max |(candles.getLastD candle0).high - (candles.getD (candles.length - 2) candle0).close|
      |(candles.getLastD candle0).low - (candles.getD (candles.length - 2) candle0).close|)

/-- The driving quotient of `_calculate_volatility_strength`. -/
def volatilityQuot (candles : List Candle) : ℚ :=
  currentTrOf candles / atrOf candles

/-- The body tier table is non-decreasing. -/
theorem bodyTiers_mono {r s : ℚ} (h : r ≤ s) : bodyTiers r ≤ bodyTiers s := by
  unfold bodyTiers
  split_ifs <;> linarith

/-- The volume tier table is non-decreasing. -/
theorem volumeTiers_mono {r s : ℚ} (h : r ≤ s) : volumeTiers r ≤ volumeTiers s := by
  unfold volumeTiers
  split_ifs <;> linarith

/-- The volatility tier table is non-decreasing. -/
theorem volatilityTiers_mono {r s : ℚ} (h : r ≤ s) :
    volatilityTiers r ≤ volatilityTiers s := by
  unfold volatilityTiers
  split_ifs <;> linarith

/-- With at least two candles and a nonzero previous body, the body
component is the tier value of its quotient. -/
theorem calculate_body_comparison_eq (c : List Candle) (h1 : 2 ≤ c.length)
    (h2 : prevBodyOf c > 0) :
    calculate_body_comparison c = bodyTiers (bodyQuot c) := by
  unfold calculate_body_comparison
  rw [if_neg (not_lt.mpr h1)]
  dsimp only
  have h2a : ¬ (|(c.getD (c.length - 2) candle0).close -
      (c.getD (c.length - 2) candle0).«open»| = 0) := ne_of_gt h2
  rw [if_neg h2a]
  rfl

/-- With at least eleven candles and a nonzero trailing average volume, the
volume component is the tier value of its quotient. -/
theorem calculate_volume_spike_eq (c : List Candle) (h1 : 11 ≤ c.length)
    (h2 : avgVolOf c > 0) :
    calculate_volume_spike c = volumeTiers (volumeQuot c) := by
  unfold calculate_volume_spike
  rw [if_neg (not_lt.mpr h1)]
  dsimp only
  have h2a : ¬ (pyMean (List.map (fun x => x.volume) (sliceBeforeLast 10 c)) = 0) :=
    ne_of_gt h2
  rw [if_neg h2a]
  rfl

/-- Length of the true-range tail list. -/
theorem trueRangesGo_length (prev : Candle) (xs : List Candle) :
    (trueRangesGo prev xs).length = xs.length := by
  induction xs generalizing prev with
  | nil => rfl
  | cons a tl ih => simp [trueRangesGo, ih]

/-- `atr_data` has one entry per candle after the first. -/
theorem trueRanges_length (xs : List Candle) :
    (trueRanges xs).length = xs.length - 1 := by
  cases xs with
  | nil => rfl
  | cons a tl => simp [trueRanges, trueRangesGo_length]

/-- With at least fifteen candles and a nonzero average true range, the
volatility component is the tier value of its quotient. -/
theorem calculate_volatility_strength_eq (c : List Candle) (h1 : 15 ≤ c.length)
    (h2 : atrOf c > 0) :
    calculate_volatility_strength c = volatilityTiers (volatilityQuot c) := by
  unfold calculate_volatility_strength
  rw [if_neg (not_lt.mpr h1)]
  dsimp only
  have hlen : ¬ (trueRanges c).length < 14 := by
    rw [trueRanges_length]
    omega
  rw [if_neg hlen]
  have h2a : ¬ (pyMean (takeLast 14 (trueRanges c)) = 0) := ne_of_gt h2
  rw [if_neg h2a]
  rfl

/-- C7: each strength component is non-decreasing in its driving quotient
across any two inputs where that quotient is defined, and equals exactly
the tiered step value of the quotient; the three tier tables take the
claimed values on the claimed intervals. -/
theorem C7_component_tier_monotonicity :
    (∀ c1 c2 : List Candle, 2 ≤ c1.length → 2 ≤ c2.length →
      prevBodyOf c1 > 0 → prevBodyOf c2 > 0 → bodyQuot c1 ≤ bodyQuot c2 →
      calculate_body_comparison c1 ≤ calculate_body_comparison c2) ∧
    (∀ c1 c2 : List Candle, 11 ≤ c1.length → 11 ≤ c2.length →
      avgVolOf c1 > 0 → avgVolOf c2 > 0 → volumeQuot c1 ≤ volumeQuot c2 →
      calculate_volume_spike c1 ≤ calculate_volume_spike c2) ∧
    (∀ c1 c2 : List Candle, 15 ≤ c1.length → 15 ≤ c2.length →
      atrOf c1 > 0 → atrOf c2 > 0 → volatilityQuot c1 ≤ volatilityQuot c2 →
      calculate_volatility_strength c1 ≤ calculate_volatility_strength c2) ∧
    (∀ c : List Candle, 2 ≤ c.length → prevBodyOf c > 0 →
      calculate_body_comparison c = bodyTiers (bodyQuot c)) ∧
    (∀ c : List Candle, 11 ≤ c.length → avgVolOf c > 0 →
      calculate_volume_spike c = volumeTiers (volumeQuot c)) ∧
    (∀ c : List Candle, 15 ≤ c.length → atrOf c > 0 →
      calculate_volatility_strength c = volatilityTiers (volatilityQuot c)) ∧
    (∀ q : ℚ, (2 ≤ q → bodyTiers q = 1) ∧ (1.5 ≤ q → q < 2 → bodyTiers q = 0.8) ∧
      (1.2 ≤ q → q < 1.5 → bodyTiers q = 0.6) ∧ (1 ≤ q → q < 1.2 → bodyTiers q = 0.4) ∧
      (q < 1 → bodyTiers q = 0.2)) ∧
    (∀ q : ℚ, (3 ≤ q → volumeTiers q = 1) ∧ (2.5 ≤ q → q < 3 → volumeTiers q = 0.9) ∧
      (2 ≤ q → q < 2.5 → volumeTiers q = 0.8) ∧ (1.5 ≤ q → q < 2 → volumeTiers q = 0.6) ∧
      (1.2 ≤ q → q < 1.5 → volumeTiers q = 0.4) ∧ (q < 1.2 → volumeTiers q = 0.2)) ∧
    (∀ q : ℚ, (2.5 ≤ q → volatilityTiers q = 1) ∧ (2 ≤ q → q < 2.5 → volatilityTiers q = 0.8) ∧
      (1.5 ≤ q → q < 2 → volatilityTiers q = 0.6) ∧ (1.2 ≤ q → q < 1.5 → volatilityTiers q = 0.4) ∧
      (q < 1.2 → volatilityTiers q = 0.2)) := by
  refine ⟨?_, ?_, ?_, calculate_body_comparison_eq, calculate_volume_spike_eq,
    calculate_volatility_strength_eq, ?_, ?_, ?_⟩
  · intro c1 c2 hl1 hl2 hb1 hb2 hq
    rw [calculate_body_comparison_eq c1 hl1 hb1, calculate_body_comparison_eq c2 hl2 hb2]
    exact bodyTiers_mono hq
  · intro c1 c2 hl1 hl2 hb1 hb2 hq
    rw [calculate_volume_spike_eq c1 hl1 hb1, calculate_volume_spike_eq c2 hl2 hb2]
    exact volumeTiers_mono hq
  · intro c1 c2 hl1 hl2 hb1 hb2 hq
    rw [calculate_volatility_strength_eq c1 hl1 hb1,
      calculate_volatility_strength_eq c2 hl2 hb2]
    exact volatilityTiers_mono hq
  · intro q
    refine ⟨?_, ?_, ?_, ?_, ?_⟩ <;> (intros; unfold bodyTiers; split_ifs <;> linarith)
  · intro q
    refine ⟨?_, ?_, ?_, ?_, ?_, ?_⟩ <;> (intros; unfold volumeTiers; split_ifs <;> linarith)
  · intro q
    refine ⟨?_, ?_, ?_, ?_, ?_⟩ <;> (intros; unfold volatilityTiers; split_ifs <;> linarith)

/-- Fourteen flat candles followed by a larger final bar: all three driving
quotients are defined. -/
def witnessSeries15 : List Candle :=
  [ { «open» := 100, high := 102, low := 99, close := 101, volume := 10, time := 0 }
  , { «open» := 100, high := 102, low := 99, close := 101, volume := 10, time := 1 }
  , { «open» := 100, high := 102, low := 99, close := 101, volume := 10, time := 2 }
  , { «open» := 100, high := 102, low := 99, close := 101, volume := 10, time := 3 }
  , { «open» := 100, high := 102, low := 99, close := 101, volume := 10, time := 4 }
  , { «open» := 100, high := 102, low := 99, close := 101, volume := 10, time := 5 }
  , { «open» := 100, high := 102, low := 99, close := 101, volume := 10, time := 6 }
  , { «open» := 100, high := 102, low := 99, close := 101, volume := 10, time := 7 }
  , { «open» := 100, high := 102, low := 99, close := 101, volume := 10, time := 8 }
  , { «open» := 100, high := 102, low := 99, close := 101, volume := 10, time := 9 }
  , { «open» := 100, high := 102, low := 99, close := 101, volume := 10, time := 10 }
  , { «open» := 100, high := 102, low := 99, close := 101, volume := 10, time := 11 }
  , { «open» := 100, high := 102, low := 99, close := 101, volume := 10, time := 12 }
  , { «open» := 100, high := 102, low := 99, close := 101, volume := 10, time := 13 }
  , { «open» := 100, high := 103, low := 99, close := 102, volume := 30, time := 14 } ]

/-- C7 witness: the component/tier equalities at a concrete fifteen-candle
series with positive previous body, trailing average volume and ATR. -/
theorem C7_component_tier_monotonicity_witness :
    calculate_body_comparison witnessSeries15 = bodyTiers (bodyQuot witnessSeries15) ∧
    calculate_volume_spike witnessSeries15 = volumeTiers (volumeQuot witnessSeries15) ∧
    calculate_volatility_strength witnessSeries15 =
      volatilityTiers (volatilityQuot witnessSeries15) :=
  ⟨C7_component_tier_monotonicity.2.2.2.1 witnessSeries15
      (by norm_num [witnessSeries15])
      (by norm_num [prevBodyOf, witnessSeries15, candle0]),
   C7_component_tier_monotonicity.2.2.2.2.1 witnessSeries15
      (by norm_num [witnessSeries15])
      (by norm_num [avgVolOf, witnessSeries15, candle0, sliceBeforeLast, pyMean]),
   C7_component_tier_monotonicity.2.2.2.2.2.1 witnessSeries15
      (by norm_num [witnessSeries15])
      (by norm_num [atrOf, witnessSeries15, candle0, trueRanges, trueRangesGo,
        takeLast, pyMean])⟩

/-- The EMA sub-method's strength always lies in [0, 1]. -/
theorem ema_strength_bounds (cfg : TrendConfig) (df : IndicatorFrame) :
    0 ≤ (identify_trend_by_ema cfg df).strength ∧
    (identify_trend_by_ema cfg df).strength ≤ 1 := by
  unfold identify_trend_by_ema
  dsimp only
  split_ifs <;> constructor <;>
    first
      | exact le_min (by positivity) (by norm_num)
      | exact min_le_right _ _
      | norm_num

/-- The structure sub-method's strength always lies in [0, 1]. -/
theorem structure_strength_bounds (lookback : ℕ) (df : IndicatorFrame) :
    0 ≤ (identify_trend_by_structure lookback df).strength ∧
    (identify_trend_by_structure lookback df).strength ≤ 1 := by
  unfold identify_trend_by_structure
  dsimp only
  split_ifs <;> constructor <;>
    first
      | exact le_min (by positivity) (by norm_num)
      | exact min_le_right _ _
      | norm_num

set_option maxHeartbeats 1000000 in
/-- C6: every strength and confidence value the pipeline produces is in
[0, 1] — the four detector strengths, both trend sub-method strengths, the
combined trend strength and confidence, and the composite enhanced strength
(given a base strength in [0, 1], as every detector produces) — while the
S/R level strength of `calculate_level_strength` lies in [0, 5]. -/
theorem C6_pipeline_value_bounds :
    (∀ p c : Candle, 0 ≤ engulfing_calculate_strength p c ∧
      engulfing_calculate_strength p c ≤ 1) ∧
    (∀ (cd : Candle) (cs : List Candle), 0 ≤ hammer_calculate_strength cd cs ∧
      hammer_calculate_strength cd cs ≤ 1) ∧
    (∀ (cd : Candle) (cs : List Candle), 0 ≤ shooting_star_calculate_strength cd cs ∧
      shooting_star_calculate_strength cd cs ≤ 1) ∧
    (∀ (cd : Candle) (cs : List Candle), 0 ≤ doji_calculate_strength cd cs ∧
      doji_calculate_strength cd cs ≤ 1) ∧
    (∀ (cfg : TrendConfig) (df : IndicatorFrame),
      0 ≤ (identify_trend_by_ema cfg df).strength ∧
      (identify_trend_by_ema cfg df).strength ≤ 1) ∧
    (∀ (lookback : ℕ) (df : IndicatorFrame),
      0 ≤ (identify_trend_by_structure lookback df).strength ∧
      (identify_trend_by_structure lookback df).strength ≤ 1) ∧
    (∀ (cfg : TrendConfig) (candles : List Candle),
      0 ≤ (get_comprehensive_trend cfg candles).strength ∧
      (get_comprehensive_trend cfg candles).strength ≤ 1 ∧
      0 ≤ (get_comprehensive_trend cfg candles).confidence ∧
      (get_comprehensive_trend cfg candles).confidence ≤ 1) ∧
    (∀ (candles : List Candle) (ps : ℚ) (sr : List ℚ), 0 ≤ ps → ps ≤ 1 →
      0 ≤ (calculate_enhanced_strength candles ps sr).total_strength ∧
      (calculate_enhanced_strength candles ps sr).total_strength ≤ 1) ∧
    (∀ (prox price : ℚ) (candles : List Candle),
      0 ≤ (calculate_level_strength prox price candles).strength ∧
      (calculate_level_strength prox price candles).strength ≤ 5) := by
  refine ⟨?_, ?_, ?_, ?_, ema_strength_bounds, structure_strength_bounds, ?_, ?_, ?_⟩
  · intro p c
    unfold engulfing_calculate_strength
    dsimp only
    constructor <;> (split_ifs <;> norm_num)
  · intro cd cs
    unfold hammer_calculate_strength
    dsimp only
    constructor <;> (split_ifs <;> norm_num)
  · intro cd cs
    unfold shooting_star_calculate_strength
    dsimp only
    constructor <;> (split_ifs <;> norm_num)
  · intro cd cs
    unfold doji_calculate_strength
    dsimp only
    constructor <;> (split_ifs <;> norm_num)
  · intro cfg candles
    obtain ⟨h1, h2⟩ := ema_strength_bounds cfg (add_technical_indicators cfg candles)
    obtain ⟨h3, h4⟩ := structure_strength_bounds 10 (add_technical_indicators cfg candles)
    unfold get_comprehensive_trend
    dsimp only
    refine ⟨by linarith, by linarith, ?_, ?_⟩
    · exact le_min (by linarith) (by norm_num)
    · exact min_le_right _ _
  · intro candles ps sr h0 h1
    unfold calculate_enhanced_strength
    split_ifs with h
    · exact ⟨h0, h1⟩
    · dsimp only
      constructor
      · exact le_min (le_max_right _ _) (by norm_num)
      · exact min_le_right _ _
  · intro prox price candles
    unfold calculate_level_strength
    dsimp only
    constructor
    · exact le_max_left _ _
    · exact max_le (by norm_num) (min_le_right _ _)

/-- C6 witness: the composite-strength bound applied at a concrete base
strength 0.5 (empty candle list, empty level list). -/
theorem C6_pipeline_value_bounds_witness :
    0 ≤ (calculate_enhanced_strength [] 0.5 []).total_strength ∧
    (calculate_enhanced_strength [] 0.5 []).total_strength ≤ 1 :=
  C6_pipeline_value_bounds.2.2.2.2.2.2.2.1 [] 0.5 [] (by norm_num) (by norm_num)
